import Mathlib

/-!
Verification of the MohuanLED Bluetooth LED controller
(`bluelights/commands.py`, `bluelights/manager.py`).

The Python code is shallowly embedded: machine integers become `Int`
(Python ints are unbounded; byte-range checks are explicit), fallible
code returns `Except PyError`, and the stateful session controller
(`BJLEDInstance`) becomes explicit state passing over an `LED` record.
The BLE transport (bleak) is modelled as a script of outcomes for the
successive `connect` and `write_gatt_char` calls, plus an event trace
recording what the controller did to the transport.

Floating point note: the source computes `int(red * brightness / 255)`,
`int(r1 + (r2 - r1) * step / steps)` and `int((step / steps) * 255)`
with Python float division followed by `int()` truncation.  For the
ranges that occur (channels and brightness in [0,255], step in [0,100])
the exact rational value of each expression is nonnegative, so `int()`
truncation equals the floor; and the double-rounding error (at most a
few ulps, i.e. < 2^-40 in absolute value here) is far smaller than the
distance from any non-integral value of these rationals to the nearest
integer (at least 1/25500), while values that are exact integers are
computed exactly (the numerators are exactly representable and the
final rounding lands on the integer).  Hence each `int(...)` equals the
mathematical floor, which for a positive divisor is Lean's `Int`
division `/` (`Int.ediv`).  The embedding uses `/` accordingly.
-/

namespace BlueLights

/-- A Python value passed where an `int` is expected: either an actual
Python `int`, or any non-integer value (for example a float), which
`validate_rgb_value` rejects with `TypeError` and `bytearray.append`
rejects the same way. -/
inductive PyNum where
  | pyInt (n : Int)
  | nonInt
deriving DecidableEq

/-- Structured content of the `LEDConnectionError` message built in
`manager.py`: either "MAC address or UUID is not set" (line 185) or
"Failed to connect after {retries} attempts: {last_error}" (line 222),
which carries the attempt count and the last observed cause. -/
inductive ConnInfo where
  | notConfigured
  | failedAfter (attempts : Nat) (lastCause : Option String)
deriving DecidableEq

/-- The exceptions the embedded code can raise.  `typeError` and
`valueError` come from `validate_rgb_value` (commands.py:62-65) and
from `bytearray.append`; `ledConnectionError` and `ledCommandError`
are the custom classes of `exceptions.py` (both subclasses of
`BlueLightsError`, not of bleak's `BleakError`); `bleakError` stands
for a raw transport exception. -/
inductive PyError where
  | typeError (name : String)
  | valueError (name : String)
  | ledConnectionError (info : ConnInfo)
  | ledCommandError (command : List Nat) (cause : String)
  | bleakError (msg : String)
deriving DecidableEq

/-- `isinstance(e, BleakError)`: of the errors in this embedding, only a
raw transport exception is a `BleakError`; the custom exceptions of
`exceptions.py` derive from `Exception` via `BlueLightsError`. -/
def isBleakError : PyError → Bool
  | .bleakError _ => true
  | _ => false

/-- `LEDCommand.TURN_ON.value` = bytearray.fromhex("69 96 02 01 01"). -/
def TURN_ON : List Nat := [0x69, 0x96, 0x02, 0x01, 0x01]

/-- `LEDCommand.TURN_OFF.value` = bytearray.fromhex("69 96 02 01 00"). -/
def TURN_OFF : List Nat := [0x69, 0x96, 0x02, 0x01, 0x00]

/-- The four-byte set-color opcode header, bytearray.fromhex("69 96 05 02")
(named `SET_COLOR_PREFIX` in `commands.py`). -/
def SET_COLOR_HEADER : List Nat := [0x69, 0x96, 0x05, 0x02]

/-- `LEDDeviceInfo.MIN_RGB_VALUE`. -/
def MIN_RGB_VALUE : Int := 0

/-- `LEDDeviceInfo.MAX_RGB_VALUE`. -/
def MAX_RGB_VALUE : Int := 255

/-- `LEDDeviceInfo.DEFAULT_BRIGHTNESS`. -/
def DEFAULT_BRIGHTNESS : Int := 255

/-- Python `bytearray.append`: accepts an `int` in `range(0, 256)`,
raises `ValueError` for an out-of-range int and `TypeError` for a
non-integer. -/
def bytearrayAppend (packet : List Nat) (value : PyNum) : Except PyError (List Nat) :=
  match value with
  | .nonInt => .error (.typeError ("bytearray.append"))
  | .pyInt n =>
      if 0 ≤ n ∧ n < 256 then .ok (packet ++ [n.toNat])
      else .error (.valueError ("bytearray.append"))

/-- `build_color_command` (commands.py:29-45): copy the set-color header
and append the three channel bytes.  The function performs no explicit
validation; out-of-range or non-integer channels make the underlying
`bytearray.append` raise. -/
def build_color_command (red green blue : PyNum) : Except PyError (List Nat) :=
  match bytearrayAppend SET_COLOR_HEADER red with
  | .error e => .error e
  | .ok p1 =>
    match bytearrayAppend p1 green with
    | .error e => .error e
    | .ok p2 => bytearrayAppend p2 blue

/-- `validate_rgb_value` (commands.py:48-66): `TypeError` for a
non-integer, `ValueError` outside `[MIN_RGB_VALUE, MAX_RGB_VALUE]`,
else returns the value. -/
def validate_rgb_value (value : PyNum) (name : String) : Except PyError Int :=
  match value with
  | .nonInt => .error (.typeError name)
  | .pyInt n =>
      if n < MIN_RGB_VALUE ∨ n > MAX_RGB_VALUE then .error (.valueError name)
      else .ok n

/-- `validate_brightness` (commands.py:69-82). -/
def validate_brightness (value : PyNum) : Except PyError Int :=
  validate_rgb_value value ("Brightness")

/-- The transport, modelled as scripts of outcomes consumed by the
successive `BleakClient.connect` and `write_gatt_char` calls: `none`
means the call succeeds, `some msg` means it raises `BleakError(msg)`.
An exhausted script defaults to success. -/
structure Transport where
  connectResults : List (Option String)
  writeResults : List (Option String)
deriving DecidableEq

/-- Observable actions the session controller performs on the transport
(and the backoff sleeps of the connect retry loop), in order. -/
inductive Event where
  | connectAttempt (ok : Bool)
  | sleepBackoff
  | teardown
  | disconnected
  | writeAttempt (frame : List Nat) (ok : Bool)
deriving DecidableEq

/-- The mutable state of a `BJLEDInstance` (manager.py:59-87) relevant
to the session controller: `client = none` models `self._client is
None`, `some false` a created but unconnected `BleakClient`, `some
true` a connected one. -/
structure LED where
  mac : Option String
  uuid : Option String
  client : Option Bool
  is_on : Option Bool
  rgb_color : Option (Int × Int × Int)
  brightness : Int
  transport : Transport
  trace : List Event
deriving DecidableEq

/-- Consume the next scripted connect outcome. -/
def nextConnect (t : Transport) : Option String × Transport :=
  (t.connectResults.headD none, { t with connectResults := t.connectResults.tail })

/-- Consume the next scripted write outcome. -/
def nextWrite (t : Transport) : Option String × Transport :=
  (t.writeResults.headD none, { t with writeResults := t.writeResults.tail })

/-- One iteration of the retry loop of `_ensure_connected`
(manager.py:191-220), with `remaining` attempts left out of `retries`.
Each attempt performs the address lookup and creates a `BleakClient`
(`client := some false`), then calls `connect`; on success the handle
is connected and the function returns; on `BleakError` the partial
handle is torn down (`client := none`, a `teardown` event) and, if an
attempt remains, the loop sleeps the fixed 2-second backoff.
Exhausting the loop raises `LEDConnectionError` carrying the attempt
count and the last cause (manager.py:222). -/
def ensure_connected_go (s : LED) (remaining : Nat) (last_error : Option String)
    (retries : Nat) : LED × Except PyError Unit :=
  match remaining with
  | 0 => (s, .error (.ledConnectionError (.failedAfter retries last_error)))
  | r + 1 =>
    let s1 : LED := { s with client := some false }
    let (res, tr) := nextConnect s1.transport
    let s2 : LED := { s1 with transport := tr }
    match res with
    | none =>
        ({ s2 with client := some true, trace := s2.trace ++ [.connectAttempt true] }, .ok ())
    | some e =>
        let s3 : LED := { s2 with
                          client := none
                          trace := s2.trace ++ [.connectAttempt false, .teardown] }
        let s4 : LED := if r = 0 then s3 else { s3 with trace := s3.trace ++ [.sleepBackoff] }
        ensure_connected_go s4 r (some e) retries

/-- `_ensure_connected` (manager.py:172-222): raises `LEDConnectionError`
("MAC address or UUID is not set") when either is missing, is a no-op
when already connected, and otherwise runs the bounded retry loop. -/
def ensure_connected (s : LED) (retries : Nat) : LED × Except PyError Unit :=
  if s.mac.isNone || s.uuid.isNone then
    (s, .error (.ledConnectionError .notConfigured))
  else if s.client = some true then (s, .ok ())
  else ensure_connected_go s retries none retries

/-- `_disconnect` (manager.py:224-233): only when a handle exists and is
connected, close it (errors swallowed) and clear it. -/
def disconnectOp (s : LED) : LED :=
  if s.client = some true then
    { s with client := none, trace := s.trace ++ [.disconnected] }
  else s

/-- One `write_gatt_char` call (manager.py:251): consume the next
scripted write outcome and record the attempt with its frame. -/
def write_gatt (s : LED) (data : List Nat) : LED × Option String :=
  let (res, tr) := nextWrite s.transport
  ({ s with transport := tr, trace := s.trace ++ [.writeAttempt data res.isNone] }, res)

/-- `_write(data, retry_on_failure=False)` (manager.py:235-262): ensure
connection, write once, and on `BleakError` raise `LEDCommandError`
carrying `bytes(data)` and the cause. -/
def write_once (s : LED) (data : List Nat) : LED × Except PyError Unit :=
  match ensure_connected s 3 with
  | (s1, .error e) => (s1, .error e)
  | (s1, .ok _) =>
    match write_gatt s1 data with
    | (s2, none) => (s2, .ok ())
    | (s2, some e) => (s2, .error (.ledCommandError data e))

/-- `_write(data, retry_on_failure)` (manager.py:235-262): ensure
connection, write; on `BleakError` with the retry flag set, force a
disconnect, reconnect, and retry exactly once with the flag cleared
(the recursive call `self._write(data, retry_on_failure=False)` is
embedded as `write_once`, its exact retry-free instance; see
`write_once_is_write_impl_false`).  Without the flag, raise
`LEDCommandError` carrying the frame. -/
def write_impl (s : LED) (data : List Nat) (retry_on_failure : Bool) :
    LED × Except PyError Unit :=
  match ensure_connected s 3 with
  | (s1, .error e) => (s1, .error e)
  | (s1, .ok _) =>
    match write_gatt s1 data with
    | (s2, none) => (s2, .ok ())
    | (s2, some e) =>
      if retry_on_failure then
        match ensure_connected (disconnectOp s2) 3 with
        | (s4, .error e2) => (s4, .error e2)
        | (s4, .ok _) => write_once s4 data
      else (s2, .error (.ledCommandError data e))

/-- `turn_on` (manager.py:264-274): write the static power-on frame and
set the cached power state on success. -/
def turn_on (s : LED) : LED × Except PyError Unit :=
  match write_impl s TURN_ON true with
  | (s1, .error e) => (s1, .error e)
  | (s1, .ok _) => ({ s1 with is_on := some true }, .ok ())

/-- `turn_off` (manager.py:276-286). -/
def turn_off (s : LED) : LED × Except PyError Unit :=
  match write_impl s TURN_OFF true with
  | (s1, .error e) => (s1, .error e)
  | (s1, .ok _) => ({ s1 with is_on := some false }, .ok ())

/-- The tail of `set_color_to_rgb` after validation (manager.py:318-326):
scale each channel by `brightness/255` with floor semantics (see the
floating point note), build the frame, write it, and cache the scaled
triple on success. -/
def set_color_validated (s : LED) (r g b bright : Int) : LED × Except PyError Unit :=
  let sr := r * bright / 255
  let sg := g * bright / 255
  let sb := b * bright / 255
  match build_color_command (.pyInt sr) (.pyInt sg) (.pyInt sb) with
  | .error e => (s, .error e)
  | .ok rgb_packet =>
    match write_impl s rgb_packet true with
    | (s1, .error e) => (s1, .error e)
    | (s1, .ok _) => ({ s1 with rgb_color := some (sr, sg, sb) }, .ok ())

/-- `set_color_to_rgb` (manager.py:288-326): validate the three channels,
then either use the cached brightness (argument omitted) or validate
the explicit brightness and update the cache before the write; then
scale, build, write and cache the scaled color. -/
def set_color_to_rgb (s : LED) (red green blue : PyNum) (brightness : Option PyNum) :
    LED × Except PyError Unit :=
  match validate_rgb_value red ("Red") with
  | .error e => (s, .error e)
  | .ok r =>
  match validate_rgb_value green ("Green") with
  | .error e => (s, .error e)
  | .ok g =>
  match validate_rgb_value blue ("Blue") with
  | .error e => (s, .error e)
  | .ok b =>
  match brightness with
  | none => set_color_validated s r g b s.brightness
  | some v =>
    match validate_brightness v with
    | .error e => (s, .error e)
    | .ok bv => set_color_validated { s with brightness := bv } r g b bv

/-- The body of one candidate iteration in `_test_uuids`
(manager.py:159-166): connect, send power-on, send power-off. -/
def probe_candidate (s : LED) : LED × Except PyError Unit :=
  match ensure_connected s 3 with
  | (s1, .error e) => (s1, .error e)
  | (s1, .ok _) =>
    match write_impl s1 TURN_ON true with
    | (s2, .error e) => (s2, .error e)
    | (s2, .ok _) => write_impl s2 TURN_OFF true

/-- `_test_uuids` (manager.py:152-170): for each candidate, set it as the
session characteristic id and probe it; on success keep it and return;
on `BleakError` (and only on `BleakError` - the custom
`LEDConnectionError`/`LEDCommandError` raised by `_ensure_connected`
and `_write` propagate out) disconnect and try the next candidate;
after the loop, clear the id. -/
def test_uuids (s : LED) (uuids : List String) : LED × Except PyError Unit :=
  match uuids with
  | [] => ({ s with uuid := none }, .ok ())
  | u :: rest =>
    let s0 : LED := { s with uuid := some u }
    match probe_candidate s0 with
    | (s1, .ok _) => (s1, .ok ())
    | (s1, .error e) =>
      if isBleakError e then
        test_uuids (disconnectOp s1) rest
      else (s1, .error e)

/-- The interpolated channel value of one `fade_to_color` step
(manager.py:349-351): `int(r1 + (r2 - r1) * step / steps)` with
`steps = 100`; the sum is nonnegative for channels in [0,255], so the
truncation equals `r1` plus the floor of the quotient. -/
def fadeChannel (a b : Int) (step : Nat) : Int :=
  a + (b - a) * (step : Int) / 100

/-- The exact sequence of `set_color_to_rgb` argument triples issued by
the `fade_to_color` loop (manager.py:348-353), one per `step in
range(steps + 1)`.  The arguments depend only on the endpoints, not on
the session state. -/
def fade_calls (sc ec : Int × Int × Int) : List (Int × Int × Int) :=
  (List.range 101).map fun step =>
    (fadeChannel sc.1 ec.1 step,
     fadeChannel sc.2.1 ec.2.1 step,
     fadeChannel sc.2.2 ec.2.2 step)

/-- The `fade_to_color` loop (manager.py:348-354) over an explicit list
of remaining step indices, issuing one `set_color_to_rgb` call per
step (with the brightness argument omitted) and stopping when a call
raises.  The `asyncio.sleep(delay)` suspensions carry no transport
effect and are not recorded. -/
def fade_to_color_go (s : LED) (sc ec : Int × Int × Int) (steps : List Nat) :
    LED × Except PyError Unit :=
  match steps with
  | [] => (s, .ok ())
  | step :: rest =>
    match set_color_to_rgb s (.pyInt (fadeChannel sc.1 ec.1 step))
        (.pyInt (fadeChannel sc.2.1 ec.2.1 step))
        (.pyInt (fadeChannel sc.2.2 ec.2.2 step)) none with
    | (s1, .error e) => (s1, .error e)
    | (s1, .ok _) => fade_to_color_go s1 sc ec rest

/-- `fade_to_color` (manager.py:328-356): 101 interpolation steps. -/
def fade_to_color (s : LED) (sc ec : Int × Int × Int) : LED × Except PyError Unit :=
  fade_to_color_go s sc ec (List.range 101)

/-- The brightness of one `breathing_light` step (manager.py:429, 435):
`int((step / steps) * 255)` with `steps = 100`. -/
def breathing_brightness (step : Nat) : Int :=
  (step : Int) * 255 / 100

/-- The brightness arguments of the fade-in loop of `breathing_light`
(manager.py:428-431): `for step in range(steps)`. -/
def breathing_ascending : List Int :=
  (List.range 100).map breathing_brightness

/-- The brightness arguments of the fade-out loop of `breathing_light`
(manager.py:434-437): `for step in range(steps, 0, -1)`, i.e. steps
100, 99, ..., 1. -/
def breathing_descending : List Int :=
  (List.range 100).map fun i => breathing_brightness (100 - i)

/-- The exact sequence of `set_color_to_rgb` arguments (color together
with the explicit brightness argument) issued by `breathing_light`
(manager.py:415-439). -/
def breathing_calls (color : Int × Int × Int) : List ((Int × Int × Int) × Int) :=
  ((List.range 100).map fun step => (color, breathing_brightness step))
  ++ ((List.range 100).map fun i => (color, breathing_brightness (100 - i)))

/-- Whether a trace event is a transport write attempt. -/
def isWriteEvent : Event → Bool
  | .writeAttempt _ _ => true
  | _ => false

/-- Number of transport write attempts recorded in a trace. -/
def writeCount (tr : List Event) : Nat := tr.countP isWriteEvent

theorem writeCount_append (a b : List Event) :
    writeCount (a ++ b) = writeCount a + writeCount b :=
  List.countP_append _ _ _

/-- The cached device state (power, color, brightness) of two session
states agrees. -/
def sameCache (a b : LED) : Prop :=
  a.is_on = b.is_on ∧ a.rgb_color = b.rgb_color ∧ a.brightness = b.brightness

theorem sameCache_refl (a : LED) : sameCache a a := ⟨rfl, rfl, rfl⟩

theorem sameCache_trans {a b c : LED} (h1 : sameCache a b) (h2 : sameCache b c) :
    sameCache a c :=
  ⟨h1.1.trans h2.1, h1.2.1.trans h2.2.1, h1.2.2.trans h2.2.2⟩

/-- The connect retry loop touches neither the cached device state nor
the resolved address and characteristic id, and performs no transport
writes. -/
theorem ensure_connected_go_cached (n : Nat) :
    ∀ (s : LED) (le : Option String) (rt : Nat),
      sameCache (ensure_connected_go s n le rt).1 s ∧
      (ensure_connected_go s n le rt).1.mac = s.mac ∧
      (ensure_connected_go s n le rt).1.uuid = s.uuid ∧
      writeCount (ensure_connected_go s n le rt).1.trace = writeCount s.trace := by
  induction n with
  | zero => exact fun s le rt => ⟨sameCache_refl _, rfl, rfl, rfl⟩
  | succ r ih =>
    intro s le rt
    simp only [ensure_connected_go, nextConnect]
    split
    · exact ⟨⟨rfl, rfl, rfl⟩, rfl, rfl, by
        simp [writeCount_append, writeCount, isWriteEvent]⟩
    · split <;>
      · refine ⟨sameCache_trans (ih _ _ _).1 ⟨rfl, rfl, rfl⟩, ?_, ?_, ?_⟩
        · rw [(ih _ _ _).2.1]
        · rw [(ih _ _ _).2.2.1]
        · rw [(ih _ _ _).2.2.2]
          simp [writeCount_append, writeCount, isWriteEvent]

/-- `_ensure_connected` touches neither the cached device state nor the
resolved identifiers, and performs no transport writes. -/
theorem ensure_connected_cached (s : LED) (rt : Nat) :
    sameCache (ensure_connected s rt).1 s ∧
    (ensure_connected s rt).1.mac = s.mac ∧
    (ensure_connected s rt).1.uuid = s.uuid ∧
    writeCount (ensure_connected s rt).1.trace = writeCount s.trace := by
  unfold ensure_connected
  split
  · exact ⟨sameCache_refl _, rfl, rfl, rfl⟩
  · split
    · exact ⟨sameCache_refl _, rfl, rfl, rfl⟩
    · exact ensure_connected_go_cached rt s none rt

/-- `_disconnect` touches neither the cached device state nor the
resolved identifiers, and performs no transport writes. -/
theorem disconnectOp_cached (s : LED) :
    sameCache (disconnectOp s) s ∧ (disconnectOp s).mac = s.mac ∧
    (disconnectOp s).uuid = s.uuid ∧
    writeCount (disconnectOp s).trace = writeCount s.trace := by
  unfold disconnectOp
  split
  · exact ⟨⟨rfl, rfl, rfl⟩, rfl, rfl, by
      simp [writeCount_append, writeCount, isWriteEvent]⟩
  · exact ⟨sameCache_refl _, rfl, rfl, rfl⟩

/-- One `write_gatt_char` call: cached state untouched, exactly one
write attempt recorded. -/
theorem write_gatt_cached (s : LED) (d : List Nat) :
    sameCache (write_gatt s d).1 s ∧ (write_gatt s d).1.mac = s.mac ∧
    (write_gatt s d).1.uuid = s.uuid ∧
    writeCount (write_gatt s d).1.trace = writeCount s.trace + 1 := by
  refine ⟨⟨rfl, rfl, rfl⟩, rfl, rfl, ?_⟩
  simp [write_gatt, writeCount_append, writeCount, isWriteEvent]

/-- `_write` without the retry flag: cached state untouched, at most one
write attempt. -/
theorem write_once_cached (s : LED) (d : List Nat) :
    sameCache (write_once s d).1 s ∧
    writeCount (write_once s d).1.trace ≤ writeCount s.trace + 1 := by
  unfold write_once
  split
  next s1 e heq =>
    have h := ensure_connected_cached s 3
    rw [heq] at h
    have hc : sameCache s1 s := h.1
    have hw : writeCount s1.trace = writeCount s.trace := h.2.2.2
    exact ⟨hc, by omega⟩
  next s1 a heq =>
    have h := ensure_connected_cached s 3
    rw [heq] at h
    have hc1 : sameCache s1 s := h.1
    have hw1 : writeCount s1.trace = writeCount s.trace := h.2.2.2
    split
    next s2 heq2 =>
      have h2 := write_gatt_cached s1 d
      rw [heq2] at h2
      have hc2 : sameCache s2 s1 := h2.1
      have hw2 : writeCount s2.trace = writeCount s1.trace + 1 := h2.2.2.2
      refine ⟨sameCache_trans hc2 hc1, ?_⟩
      show writeCount s2.trace ≤ writeCount s.trace + 1
      omega
    next s2 e heq2 =>
      have h2 := write_gatt_cached s1 d
      rw [heq2] at h2
      have hc2 : sameCache s2 s1 := h2.1
      have hw2 : writeCount s2.trace = writeCount s1.trace + 1 := h2.2.2.2
      refine ⟨sameCache_trans hc2 hc1, ?_⟩
      show writeCount s2.trace ≤ writeCount s.trace + 1
      omega

/-- `_write`: cached state untouched and, whatever the transport
scripts, at most two write attempts (the original and at most one
retry). -/
theorem write_impl_cached (s : LED) (d : List Nat) (b : Bool) :
    sameCache (write_impl s d b).1 s ∧
    writeCount (write_impl s d b).1.trace ≤ writeCount s.trace + 2 := by
  unfold write_impl
  split
  next s1 e heq =>
    have h := ensure_connected_cached s 3
    rw [heq] at h
    have hc : sameCache s1 s := h.1
    have hw : writeCount s1.trace = writeCount s.trace := h.2.2.2
    exact ⟨hc, by omega⟩
  next s1 a heq =>
    have h := ensure_connected_cached s 3
    rw [heq] at h
    have hc1 : sameCache s1 s := h.1
    have hw1 : writeCount s1.trace = writeCount s.trace := h.2.2.2
    split
    next s2 heq2 =>
      have h2 := write_gatt_cached s1 d
      rw [heq2] at h2
      have hc2 : sameCache s2 s1 := h2.1
      have hw2 : writeCount s2.trace = writeCount s1.trace + 1 := h2.2.2.2
      refine ⟨sameCache_trans hc2 hc1, ?_⟩
      show writeCount s2.trace ≤ writeCount s.trace + 2
      omega
    next s2 e heq2 =>
      have h2 := write_gatt_cached s1 d
      rw [heq2] at h2
      have hc2 : sameCache s2 s1 := h2.1
      have hw2 : writeCount s2.trace = writeCount s1.trace + 1 := h2.2.2.2
      split
      · have hd := disconnectOp_cached s2
        have hcd : sameCache (disconnectOp s2) s2 := hd.1
        have hwd : writeCount (disconnectOp s2).trace = writeCount s2.trace := hd.2.2.2
        split
        next s4 e2 heq3 =>
          have h3 := ensure_connected_cached (disconnectOp s2) 3
          rw [heq3] at h3
          have hc4 : sameCache s4 (disconnectOp s2) := h3.1
          have hw4 : writeCount s4.trace = writeCount (disconnectOp s2).trace := h3.2.2.2
          refine ⟨sameCache_trans hc4 (sameCache_trans hcd (sameCache_trans hc2 hc1)), ?_⟩
          show writeCount s4.trace ≤ writeCount s.trace + 2
          omega
        next s4 a4 heq3 =>
          have h3 := ensure_connected_cached (disconnectOp s2) 3
          rw [heq3] at h3
          have hc4 : sameCache s4 (disconnectOp s2) := h3.1
          have hw4 : writeCount s4.trace = writeCount (disconnectOp s2).trace := h3.2.2.2
          have h5 := write_once_cached s4 d
          refine ⟨sameCache_trans h5.1 (sameCache_trans hc4
            (sameCache_trans hcd (sameCache_trans hc2 hc1))), ?_⟩
          have h6 := h5.2
          show writeCount (write_once s4 d).1.trace ≤ writeCount s.trace + 2
          omega
      · refine ⟨sameCache_trans hc2 hc1, ?_⟩
        show writeCount s2.trace ≤ writeCount s.trace + 2
        omega

theorem validate_rgb_value_ok (n : Int) (name : String) (h1 : 0 ≤ n) (h2 : n ≤ 255) :
    validate_rgb_value (.pyInt n) name = .ok n := by
  simp only [validate_rgb_value, MIN_RGB_VALUE, MAX_RGB_VALUE]
  rw [if_neg (by omega)]

theorem bytearrayAppend_ok (p : List Nat) (n : Int) (h1 : 0 ≤ n) (h2 : n < 256) :
    bytearrayAppend p (.pyInt n) = .ok (p ++ [n.toNat]) := by
  simp only [bytearrayAppend]
  rw [if_pos ⟨h1, h2⟩]

theorem build_color_command_ok (r g b : Int)
    (hr1 : 0 ≤ r) (hr2 : r ≤ 255) (hg1 : 0 ≤ g) (hg2 : g ≤ 255)
    (hb1 : 0 ≤ b) (hb2 : b ≤ 255) :
    build_color_command (.pyInt r) (.pyInt g) (.pyInt b) =
      .ok (SET_COLOR_HEADER ++ [r.toNat, g.toNat, b.toNat]) := by
  simp only [build_color_command,
    bytearrayAppend_ok SET_COLOR_HEADER r hr1 (by omega),
    bytearrayAppend_ok (SET_COLOR_HEADER ++ [r.toNat]) g hg1 (by omega),
    bytearrayAppend_ok ((SET_COLOR_HEADER ++ [r.toNat]) ++ [g.toNat]) b hb1 (by omega)]
  simp

/-- Channel scaling stays inside the byte range. -/
theorem scale_bounds (c br : Int) (hc1 : 0 ≤ c) (hc2 : c ≤ 255)
    (hb1 : 0 ≤ br) (hb2 : br ≤ 255) :
    0 ≤ c * br / 255 ∧ c * br / 255 ≤ 255 := by
  have h1 : 0 ≤ c * br := mul_nonneg hc1 hb1
  have h2 : c * br ≤ 255 * 255 := mul_le_mul hc2 hb2 hb1 (by norm_num)
  omega

/-- On a connected session whose next scripted write succeeds, `_write`
succeeds, records exactly that write, and changes nothing else. -/
theorem write_impl_ok (s : LED) (data : List Nat)
    (hm : s.mac.isNone = false) (hu : s.uuid.isNone = false)
    (hc : s.client = some true)
    (hw : s.transport.writeResults.headD none = none) :
    write_impl s data true =
      ({ s with
         transport := { s.transport with
                        writeResults := s.transport.writeResults.tail }
         trace := s.trace ++ [Event.writeAttempt data true] }, .ok ()) := by
  simp only [List.headD_eq_head?_getD] at hw
  simp [write_impl, ensure_connected, write_gatt, nextWrite, hm, hu, hc, hw]

/-- On a connected session whose next scripted write succeeds, the
post-validation tail of `set_color_to_rgb` writes exactly the header
plus the three scaled channel bytes and caches the scaled triple. -/
theorem set_color_validated_ok (s : LED) (r g b bright : Int)
    (hm : s.mac.isNone = false) (hu : s.uuid.isNone = false)
    (hc : s.client = some true)
    (hw : s.transport.writeResults.headD none = none)
    (hr : 0 ≤ r ∧ r ≤ 255) (hg : 0 ≤ g ∧ g ≤ 255) (hb : 0 ≤ b ∧ b ≤ 255)
    (hbr : 0 ≤ bright ∧ bright ≤ 255) :
    set_color_validated s r g b bright =
      ({ s with
         transport := { s.transport with
                        writeResults := s.transport.writeResults.tail }
         trace := s.trace ++ [Event.writeAttempt (SET_COLOR_HEADER ++
           [(r * bright / 255).toNat, (g * bright / 255).toNat,
            (b * bright / 255).toNat]) true]
         rgb_color := some (r * bright / 255, g * bright / 255, b * bright / 255) },
       .ok ()) := by
  have h1 := scale_bounds r bright hr.1 hr.2 hbr.1 hbr.2
  have h2 := scale_bounds g bright hg.1 hg.2 hbr.1 hbr.2
  have h3 := scale_bounds b bright hb.1 hb.2 hbr.1 hbr.2
  simp only [set_color_validated,
    build_color_command_ok _ _ _ h1.1 h1.2 h2.1 h2.2 h3.1 h3.2,
    write_impl_ok s _ hm hu hc hw]

theorem fadeChannel_zero (a b : Int) : fadeChannel a b 0 = a := by
  simp [fadeChannel]

theorem fadeChannel_hundred (a b : Int) : fadeChannel a b 100 = b := by
  simp only [fadeChannel]
  rw [show ((100 : Nat) : Int) = 100 from rfl,
    Int.mul_ediv_cancel _ (by norm_num : (100 : Int) ≠ 0)]
  omega

/-- Every interpolated channel stays inside the byte range when the
endpoints do. -/
theorem fadeChannel_bounds (a b : Int) (step : Nat)
    (ha1 : 0 ≤ a) (ha2 : a ≤ 255) (hb1 : 0 ≤ b) (hb2 : b ≤ 255) (hst : step ≤ 100) :
    0 ≤ fadeChannel a b step ∧ fadeChannel a b step ≤ 255 := by
  have hs0 : (0 : Int) ≤ (step : Int) := Int.ofNat_nonneg step
  have hs1 : (step : Int) ≤ 100 := by exact_mod_cast hst
  unfold fadeChannel
  rcases le_or_lt a b with hab | hab
  · have h1 : 0 ≤ (b - a) * (step : Int) := mul_nonneg (by omega) hs0
    have h2 : (b - a) * (step : Int) ≤ (b - a) * 100 :=
      mul_le_mul_of_nonneg_left hs1 (by omega)
    omega
  · have h1 : 0 ≤ (a - b) * (step : Int) := mul_nonneg (by omega) hs0
    have h2 : (a - b) * (step : Int) ≤ (a - b) * 100 :=
      mul_le_mul_of_nonneg_left hs1 (by omega)
    have h3 : (b - a) * (step : Int) = -((a - b) * (step : Int)) := by ring
    omega

/-- All three components of an RGB triple lie in the byte range. -/
def inRange (c : Int × Int × Int) : Prop :=
  0 ≤ c.1 ∧ c.1 ≤ 255 ∧ 0 ≤ c.2.1 ∧ c.2.1 ≤ 255 ∧ 0 ≤ c.2.2 ∧ c.2.2 ≤ 255

/-- On a connected session at the default brightness with an all-success
write script, the fade loop succeeds and sends exactly one frame per
remaining step, carrying the interpolated channels. -/
theorem fade_go_spec (steps : List Nat) :
    ∀ (s : LED) (sc ec : Int × Int × Int),
      (∀ x ∈ steps, x ≤ 100) → inRange sc → inRange ec →
      s.mac.isNone = false → s.uuid.isNone = false → s.client = some true →
      s.transport.writeResults = [] → s.brightness = 255 →
      (fade_to_color_go s sc ec steps).2 = .ok () ∧
      (fade_to_color_go s sc ec steps).1.trace = s.trace ++
        steps.map (fun st => Event.writeAttempt (SET_COLOR_HEADER ++
          [(fadeChannel sc.1 ec.1 st).toNat, (fadeChannel sc.2.1 ec.2.1 st).toNat,
           (fadeChannel sc.2.2 ec.2.2 st).toNat]) true) := by
  induction steps with
  | nil =>
    intro s sc ec _ _ _ _ _ _ _ _
    exact ⟨rfl, by simp [fade_to_color_go]⟩
  | cons st rest ih =>
    intro s sc ec hsteps hsc hec hm hu hc hw hbr
    obtain ⟨a1, a2, a3, a4, a5, a6⟩ := hsc
    obtain ⟨b1, b2, b3, b4, b5, b6⟩ := hec
    have hst : st ≤ 100 := hsteps st (by simp)
    have h1 := fadeChannel_bounds sc.1 ec.1 st a1 a2 b1 b2 hst
    have h2 := fadeChannel_bounds sc.2.1 ec.2.1 st a3 a4 b3 b4 hst
    have h3 := fadeChannel_bounds sc.2.2 ec.2.2 st a5 a6 b5 b6 hst
    have hw' : s.transport.writeResults.headD none = none := by rw [hw]; rfl
    have hsv := set_color_validated_ok s (fadeChannel sc.1 ec.1 st)
      (fadeChannel sc.2.1 ec.2.1 st) (fadeChannel sc.2.2 ec.2.2 st) 255
      hm hu hc hw' h1 h2 h3 ⟨by norm_num, by norm_num⟩
    have hcan1 : fadeChannel sc.1 ec.1 st * 255 / 255 = fadeChannel sc.1 ec.1 st :=
      Int.mul_ediv_cancel _ (by norm_num)
    have hcan2 : fadeChannel sc.2.1 ec.2.1 st * 255 / 255 = fadeChannel sc.2.1 ec.2.1 st :=
      Int.mul_ediv_cancel _ (by norm_num)
    have hcan3 : fadeChannel sc.2.2 ec.2.2 st * 255 / 255 = fadeChannel sc.2.2 ec.2.2 st :=
      Int.mul_ediv_cancel _ (by norm_num)
    rw [hcan1, hcan2, hcan3] at hsv
    have hcall : set_color_to_rgb s (.pyInt (fadeChannel sc.1 ec.1 st))
        (.pyInt (fadeChannel sc.2.1 ec.2.1 st))
        (.pyInt (fadeChannel sc.2.2 ec.2.2 st)) none =
        set_color_validated s (fadeChannel sc.1 ec.1 st)
          (fadeChannel sc.2.1 ec.2.1 st) (fadeChannel sc.2.2 ec.2.2 st) s.brightness := by
      simp only [set_color_to_rgb,
        validate_rgb_value_ok _ _ h1.1 h1.2,
        validate_rgb_value_ok _ _ h2.1 h2.2,
        validate_rgb_value_ok _ _ h3.1 h3.2]
    rw [hbr] at hcall
    have hstep := hcall.trans hsv
    simp only [fade_to_color_go, hstep]
    have hre := ih ({ s with
        transport := { s.transport with writeResults := s.transport.writeResults.tail }
        trace := s.trace ++ [Event.writeAttempt (SET_COLOR_HEADER ++
          [(fadeChannel sc.1 ec.1 st).toNat, (fadeChannel sc.2.1 ec.2.1 st).toNat,
           (fadeChannel sc.2.2 ec.2.2 st).toNat]) true]
        rgb_color := some (fadeChannel sc.1 ec.1 st, fadeChannel sc.2.1 ec.2.1 st,
          fadeChannel sc.2.2 ec.2.2 st) }) sc ec
      (fun x hx => hsteps x (by simp [hx])) ⟨a1, a2, a3, a4, a5, a6⟩
      ⟨b1, b2, b3, b4, b5, b6⟩ hm hu hc (by simp [hw]) hbr
    refine ⟨hre.1, ?_⟩
    rw [hre.2]
    simp

/-! Effect sequencer model.  `start_color_cycle` (manager.py:487-506),
`stop_effect` (manager.py:508-517) and `stop_effect_sync`
(manager.py:519-523) manipulate asyncio tasks.  The single-threaded
cooperative event loop is modelled explicitly: an effect task is its
identifier, the list of its remaining actions (one per suspension
point: a transport write or a sleep), and a cancellation flag.  The
loop repeatedly resumes the frontmost task; a task whose cancellation
flag is set raises `CancelledError` at its pending await point the
next time it is resumed and exits immediately without performing its
action (`color_cycle`, manager.py:480-485, re-raises the
cancellation), which is modelled by removing it without logging. -/

/-- One pending action of an effect task at a suspension point. -/
inductive EffAction where
  | writeA (frame : List Nat)
  | sleepA
deriving DecidableEq

/-- An asyncio task running one effect. -/
structure EffTask where
  tid : Nat
  pending : List EffAction
  cancelled : Bool
deriving DecidableEq

/-- The event loop: scheduled tasks in resumption order, the manager's
`self._running_task` reference, and the log of writes performed so
far, each tagged with the id of the task that performed it. -/
structure LoopState where
  tasks : List EffTask
  runningRef : Option Nat
  log : List (Nat × List Nat)
deriving DecidableEq

/-- Whether a task with the given id is still scheduled (not yet
terminated). -/
def taskAlive (st : LoopState) (tid : Nat) : Bool :=
  st.tasks.any fun t => t.tid == tid

/-- `task.cancel()`: set the cancellation flag of the task. -/
def cancelTask (tasks : List EffTask) (tid : Nat) : List EffTask :=
  tasks.map fun t => if t.tid == tid then { t with cancelled := true } else t

/-- One scheduler step: resume the frontmost task.  A cancelled task
exits at its await point without acting; otherwise it performs its
next action (logging the write, if any) and is rescheduled at the back
(or exits if it has no actions left). -/
def runStep (st : LoopState) : LoopState :=
  match st.tasks with
  | [] => st
  | t :: rest =>
    if t.cancelled then { st with tasks := rest }
    else
      match t.pending with
      | [] => { st with tasks := rest }
      | .writeA f :: acts =>
        { st with
          tasks := rest ++ [{ t with pending := acts }]
          log := st.log ++ [(t.tid, f)] }
      | .sleepA :: acts =>
        { st with tasks := rest ++ [{ t with pending := acts }] }

/-- Run the scheduler a given number of steps. -/
def runSteps : Nat → LoopState → LoopState
  | 0, st => st
  | n + 1, st => runSteps n (runStep st)

/-- `asyncio.create_task` (manager.py:503-505): schedule a fresh task
and store it in `self._running_task`. -/
def create_task (st : LoopState) (tid : Nat) (prog : List EffAction) : LoopState :=
  { st with
    tasks := st.tasks ++ [{ tid := tid, pending := prog, cancelled := false }]
    runningRef := some tid }

/-- `stop_effect_sync` (manager.py:519-523): if a running task exists
and is not done, request its cancellation and drop the reference.  It
does not await the task, so the task stays scheduled until its next
resumption. -/
def stop_effect_sync (st : LoopState) : LoopState :=
  match st.runningRef with
  | none => st
  | some tid =>
    if taskAlive st tid then
      { st with tasks := cancelTask st.tasks tid, runningRef := none }
    else st

/-- `stop_effect` (manager.py:508-517): cancel the running task and
await it.  The awaited cancelled task exits at its pending await point
without acting, so awaiting it amounts to removing it from the loop
with no log entry; the reference is then cleared. -/
def stop_effect_model (st : LoopState) : LoopState :=
  match st.runningRef with
  | none => st
  | some tid =>
    if taskAlive st tid then
      { st with tasks := st.tasks.filter (fun t => t.tid != tid), runningRef := none }
    else st

/-- `start_color_cycle` (manager.py:487-506): synchronously cancel any
running effect via `stop_effect_sync` (without awaiting it), then
immediately create the new task. -/
def start_color_cycle_model (st : LoopState) (tid : Nat) (prog : List EffAction) :
    LoopState :=
  create_task (stop_effect_sync st) tid prog

/-- The writes a given task id has contributed to the log. -/
def logFor (st : LoopState) (tid : Nat) : List (Nat × List Nat) :=
  st.log.filter fun e => e.1 == tid

/-- Every still-scheduled task with this id is cancelled. -/
def noLiveTask (st : LoopState) (tid : Nat) : Prop :=
  ∀ t ∈ st.tasks, t.tid = tid → t.cancelled = true

theorem runStep_noLive {st : LoopState} {tid : Nat} (h : noLiveTask st tid) :
    noLiveTask (runStep st) tid ∧ logFor (runStep st) tid = logFor st tid := by
  unfold runStep
  cases hts : st.tasks with
  | nil => exact ⟨by rw [noLiveTask, hts]; simp, rfl⟩
  | cons t rest =>
    have hh := h
    rw [noLiveTask, hts] at hh
    have hrest : noLiveTask { st with tasks := rest } tid := by
      intro x hx hxt
      exact hh x (by simp [hx]) hxt
    obtain ⟨ttid, tpend, tcan⟩ := t
    cases tcan with
    | true => exact ⟨hrest, rfl⟩
    | false =>
      have htid : ttid ≠ tid := by
        intro hcontra
        have := hh ⟨ttid, tpend, false⟩ (by simp) hcontra
        exact Bool.false_ne_true this
      cases tpend with
      | nil => exact ⟨hrest, rfl⟩
      | cons a acts =>
        cases a with
        | writeA f =>
          refine ⟨?_, ?_⟩
          · intro x hx hxt
            have hx2 : x ∈ rest ++ [(⟨ttid, acts, false⟩ : EffTask)] := hx
            rcases List.mem_append.mp hx2 with hx3 | hx3
            · exact hh x (by simp [hx3]) hxt
            · have hx4 : x = ⟨ttid, acts, false⟩ := by simpa using hx3
              rw [hx4] at hxt
              exact absurd hxt htid
          · show logFor { st with
                tasks := rest ++ [⟨ttid, acts, false⟩]
                log := st.log ++ [(ttid, f)] } tid = logFor st tid
            unfold logFor
            rw [List.filter_append]
            simp [htid]
        | sleepA =>
          refine ⟨?_, rfl⟩
          intro x hx hxt
          have hx2 : x ∈ rest ++ [(⟨ttid, acts, false⟩ : EffTask)] := hx
          rcases List.mem_append.mp hx2 with hx3 | hx3
          · exact hh x (by simp [hx3]) hxt
          · have hx4 : x = ⟨ttid, acts, false⟩ := by simpa using hx3
            rw [hx4] at hxt
            exact absurd hxt htid

/-- Once every task with a given id is cancelled or gone, that id never
writes again, no matter how long the loop runs. -/
theorem runSteps_noLive (n : Nat) :
    ∀ (st : LoopState) (tid : Nat), noLiveTask st tid →
      logFor (runSteps n st) tid = logFor st tid := by
  induction n with
  | zero => intro st tid _; rfl
  | succ m ih =>
    intro st tid h
    have h1 := runStep_noLive h
    rw [runSteps, ih (runStep st) tid h1.1, h1.2]

/-- A resolved, connected session with empty (all-success) transport
scripts, at the default brightness and with unknown cached power state
and color. -/
def readyLED : LED :=
  ⟨some ("AA:BB:CC:DD:EE:FF"), some ("0000ffe1-0000-1000-8000-00805f9b34fb"),
   some true, none, none, 255, ⟨[], []⟩, []⟩

/-- The inputs `validate_rgb_value` and `bytearray.append` reject: a
Python int outside [0,255], or a non-integer value. -/
def isInvalidInput : PyNum → Bool
  | .pyInt n => decide (n < 0 ∨ 255 < n)
  | .nonInt => true

/-- Whether an error is a local bad-input rejection (`ValueError` or
`TypeError`), the realization of the InvalidValue class of the error
taxonomy. -/
def isInvalidValueError : PyError → Bool
  | .valueError _ => true
  | .typeError _ => true
  | _ => false

theorem validate_rgb_value_err (v : PyNum) (name : String) (h : isInvalidInput v = true) :
    ∃ e, validate_rgb_value v name = .error e ∧ isInvalidValueError e = true := by
  cases v with
  | nonInt => exact ⟨.typeError name, rfl, rfl⟩
  | pyInt n =>
    simp only [isInvalidInput, decide_eq_true_eq] at h
    refine ⟨.valueError name, ?_, rfl⟩
    simp only [validate_rgb_value, MIN_RGB_VALUE, MAX_RGB_VALUE]
    rw [if_pos (by omega)]

theorem bytearrayAppend_err (p : List Nat) (v : PyNum) (h : isInvalidInput v = true) :
    ∃ e, bytearrayAppend p v = .error e ∧ isInvalidValueError e = true := by
  cases v with
  | nonInt => exact ⟨.typeError ("bytearray.append"), rfl, rfl⟩
  | pyInt n =>
    simp only [isInvalidInput, decide_eq_true_eq] at h
    refine ⟨.valueError ("bytearray.append"), ?_, rfl⟩
    simp only [bytearrayAppend]
    rw [if_neg (by omega)]

theorem not_invalid (v : PyNum) (h : isInvalidInput v = false) :
    ∃ n : Int, v = .pyInt n ∧ 0 ≤ n ∧ n ≤ 255 := by
  cases v with
  | nonInt => simp [isInvalidInput] at h
  | pyInt n =>
    simp only [isInvalidInput, decide_eq_false_iff_not, not_or, not_lt] at h
    exact ⟨n, rfl, by omega⟩

/-- Either the validated tail succeeds, or it leaves power state, color
and brightness caches exactly as they were. -/
theorem set_color_validated_cases (s : LED) (r g b bright : Int) :
    (set_color_validated s r g b bright).2 = .ok () ∨
    ((set_color_validated s r g b bright).1.rgb_color = s.rgb_color ∧
     (set_color_validated s r g b bright).1.is_on = s.is_on ∧
     (set_color_validated s r g b bright).1.brightness = s.brightness) := by
  simp only [set_color_validated]
  split
  · right; exact ⟨rfl, rfl, rfl⟩
  · next p2 heqb =>
    split
    next s1 e heq =>
      right
      have hcached := write_impl_cached s p2 true
      rw [heq] at hcached
      have hc : sameCache s1 s := hcached.1
      exact ⟨hc.2.1, hc.1, hc.2.2⟩
    next s1 a heq => left; rfl

/-- Either `set_color_to_rgb` succeeds, or the cached color and power
state are exactly as they were. -/
theorem set_color_to_rgb_cases (s : LED) (red green blue : PyNum)
    (brightness : Option PyNum) :
    (set_color_to_rgb s red green blue brightness).2 = .ok () ∨
    ((set_color_to_rgb s red green blue brightness).1.rgb_color = s.rgb_color ∧
     (set_color_to_rgb s red green blue brightness).1.is_on = s.is_on) := by
  unfold set_color_to_rgb
  split
  · right; exact ⟨rfl, rfl⟩
  · split
    · right; exact ⟨rfl, rfl⟩
    · split
      · right; exact ⟨rfl, rfl⟩
      · split
        · rcases set_color_validated_cases s _ _ _ s.brightness with h | h
          · left; exact h
          · right; exact ⟨h.1, h.2.1⟩
        · split
          · right; exact ⟨rfl, rfl⟩
          · next bv heq =>
            rcases set_color_validated_cases { s with brightness := bv } _ _ _ bv with h | h
            · left; exact h
            · right; exact ⟨h.1, h.2.1⟩

/-- The cached power state is never touched by `set_color_to_rgb`
(only `turn_on`/`turn_off` write it). -/
theorem set_color_validated_is_on (s : LED) (r g b bright : Int) :
    (set_color_validated s r g b bright).1.is_on = s.is_on := by
  simp only [set_color_validated]
  split
  · rfl
  · next p2 heqb =>
    split
    next s1 e heq =>
      have h := write_impl_cached s p2 true
      rw [heq] at h
      exact h.1.1
    next s1 a heq =>
      have h := write_impl_cached s p2 true
      rw [heq] at h
      exact h.1.1

theorem set_color_to_rgb_is_on (s : LED) (red green blue : PyNum)
    (brightness : Option PyNum) :
    (set_color_to_rgb s red green blue brightness).1.is_on = s.is_on := by
  unfold set_color_to_rgb
  split
  · rfl
  · split
    · rfl
    · split
      · rfl
      · split
        · exact set_color_validated_is_on s _ _ _ _
        · split
          · rfl
          · exact set_color_validated_is_on { s with brightness := _ } _ _ _ _

/-- `turn_on` either succeeds (setting the cached power state, touching
nothing else of the cache) or fails leaving the whole cache as it
was. -/
theorem turn_on_cases (s : LED) :
    ((turn_on s).2 = .ok () ∧ (turn_on s).1.is_on = some true ∧
     (turn_on s).1.rgb_color = s.rgb_color ∧ (turn_on s).1.brightness = s.brightness) ∨
    ((turn_on s).2 ≠ .ok () ∧ sameCache (turn_on s).1 s) := by
  unfold turn_on
  split
  next s1 e heq =>
    right
    have h := write_impl_cached s TURN_ON true
    rw [heq] at h
    exact ⟨by simp, h.1⟩
  next s1 a heq =>
    left
    have h := write_impl_cached s TURN_ON true
    rw [heq] at h
    have hc : sameCache s1 s := h.1
    exact ⟨rfl, rfl, hc.2.1, hc.2.2⟩

/-- `turn_off`, symmetrically. -/
theorem turn_off_cases (s : LED) :
    ((turn_off s).2 = .ok () ∧ (turn_off s).1.is_on = some false ∧
     (turn_off s).1.rgb_color = s.rgb_color ∧ (turn_off s).1.brightness = s.brightness) ∨
    ((turn_off s).2 ≠ .ok () ∧ sameCache (turn_off s).1 s) := by
  unfold turn_off
  split
  next s1 e heq =>
    right
    have h := write_impl_cached s TURN_OFF true
    rw [heq] at h
    exact ⟨by simp, h.1⟩
  next s1 a heq =>
    left
    have h := write_impl_cached s TURN_OFF true
    rw [heq] at h
    have hc : sameCache s1 s := h.1
    exact ⟨rfl, rfl, hc.2.1, hc.2.2⟩

theorem taskAlive_false_noLive {st : LoopState} {tid : Nat}
    (h : taskAlive st tid = false) : noLiveTask st tid := by
  intro t ht htid
  exfalso
  have halive : taskAlive st tid = true := by
    rw [taskAlive, List.any_eq_true]
    exact ⟨t, ht, beq_iff_eq.mpr htid⟩
  rw [halive] at h
  exact Bool.noConfusion h

theorem cancelTask_noLive (tasks : List EffTask) (tid : Nat) :
    ∀ t ∈ cancelTask tasks tid, t.tid = tid → t.cancelled = true := by
  intro t ht htid
  unfold cancelTask at ht
  obtain ⟨t0, ht0, heq⟩ := List.mem_map.mp ht
  by_cases h0 : (t0.tid == tid) = true
  · rw [if_pos h0] at heq
    rw [← heq]
  · rw [if_neg h0] at heq
    subst heq
    exact absurd (beq_iff_eq.mpr htid) h0

/-- C1: for every r, g, b, brightness and cached brightness in [0,255],
on a connected session whose write succeeds, `set_color_to_rgb` sends
exactly one frame whose trailing three bytes are floor(c*brightness/255)
for each channel c; when the brightness argument is given it is also
cached, and when it is omitted the cached brightness is used instead;
on success the cached color is the scaled triple, not the raw input. -/
theorem set_color_scales_and_caches (r g b br b0 : Int) (s : LED)
    (hr : 0 ≤ r ∧ r ≤ 255) (hg : 0 ≤ g ∧ g ≤ 255) (hb : 0 ≤ b ∧ b ≤ 255)
    (hbr : 0 ≤ br ∧ br ≤ 255) (hb0 : 0 ≤ b0 ∧ b0 ≤ 255)
    (hm : s.mac.isNone = false) (hu : s.uuid.isNone = false)
    (hc : s.client = some true)
    (hw : s.transport.writeResults.headD none = none)
    (hcache : s.brightness = b0) :
    set_color_to_rgb s (.pyInt r) (.pyInt g) (.pyInt b) (some (.pyInt br)) =
      ({ s with
         brightness := br
         transport := { s.transport with
                        writeResults := s.transport.writeResults.tail }
         trace := s.trace ++ [Event.writeAttempt (SET_COLOR_HEADER ++
           [(r * br / 255).toNat, (g * br / 255).toNat, (b * br / 255).toNat]) true]
         rgb_color := some (r * br / 255, g * br / 255, b * br / 255) }, .ok ())
  ∧ set_color_to_rgb s (.pyInt r) (.pyInt g) (.pyInt b) none =
      ({ s with
         transport := { s.transport with
                        writeResults := s.transport.writeResults.tail }
         trace := s.trace ++ [Event.writeAttempt (SET_COLOR_HEADER ++
           [(r * b0 / 255).toNat, (g * b0 / 255).toNat, (b * b0 / 255).toNat]) true]
         rgb_color := some (r * b0 / 255, g * b0 / 255, b * b0 / 255) }, .ok ()) := by
  constructor
  · have h := set_color_validated_ok ({ s with brightness := br }) r g b br
      hm hu hc hw hr hg hb hbr
    simp only [set_color_to_rgb,
      validate_rgb_value_ok _ _ hr.1 hr.2,
      validate_rgb_value_ok _ _ hg.1 hg.2,
      validate_rgb_value_ok _ _ hb.1 hb.2,
      validate_brightness,
      validate_rgb_value_ok _ _ hbr.1 hbr.2]
    exact h
  · subst hcache
    have h := set_color_validated_ok s r g b s.brightness hm hu hc hw hr hg hb hb0
    simp only [set_color_to_rgb,
      validate_rgb_value_ok _ _ hr.1 hr.2,
      validate_rgb_value_ok _ _ hg.1 hg.2,
      validate_rgb_value_ok _ _ hb.1 hb.2]
    exact h

/-- Witness for C1 at (10, 20, 30) with brightness 100: the scaled
triple floor(10*100/255, 20*100/255, 30*100/255) = (3, 7, 11) is both
sent and cached; with the argument omitted the cached 255 yields the
identity scaling. -/
theorem set_color_scales_and_caches_witness :
    (set_color_to_rgb readyLED (.pyInt 10) (.pyInt 20) (.pyInt 30)
        (some (.pyInt 100))).1.rgb_color = some (3, 7, 11)
  ∧ (set_color_to_rgb readyLED (.pyInt 10) (.pyInt 20) (.pyInt 30)
        (some (.pyInt 100))).1.brightness = 100
  ∧ (set_color_to_rgb readyLED (.pyInt 10) (.pyInt 20) (.pyInt 30)
        none).1.rgb_color = some (10, 20, 30) := by
  have h := set_color_scales_and_caches 10 20 30 100 255 readyLED
    (by norm_num) (by norm_num) (by norm_num) (by norm_num) (by norm_num)
    rfl rfl rfl rfl rfl
  refine ⟨?_, ?_, ?_⟩
  · rw [h.1]; decide
  · rw [h.1]
  · rw [h.2]; decide

/-- C2: whenever one of the three channel inputs is outside [0,255] or
non-integral, `set_color_to_rgb` fails with the bad-input error
(ValueError / TypeError, the InvalidValue class of the taxonomy) and
returns the session exactly unchanged (nothing is built or written),
and `build_color_command` fails the same way producing no frame. -/
theorem invalid_rgb_rejected (red green blue : PyNum)
    (h : isInvalidInput red = true ∨ isInvalidInput green = true ∨
      isInvalidInput blue = true) :
    (∀ (brightness : Option PyNum) (s : LED), ∃ e,
      set_color_to_rgb s red green blue brightness = (s, .error e) ∧
      isInvalidValueError e = true)
  ∧ (∃ e, build_color_command red green blue = .error e ∧
      isInvalidValueError e = true) := by
  by_cases hred : isInvalidInput red = true
  · obtain ⟨e1, he1, hi1⟩ := validate_rgb_value_err red ("Red") hred
    obtain ⟨e2, he2, hi2⟩ := bytearrayAppend_err SET_COLOR_HEADER red hred
    refine ⟨fun brightness s => ⟨e1, ?_, hi1⟩, ⟨e2, ?_, hi2⟩⟩
    · simp only [set_color_to_rgb, he1]
    · simp only [build_color_command, he2]
  · obtain ⟨nr, hnr, hnr1, hnr2⟩ := not_invalid red (Bool.eq_false_iff.mpr hred)
    subst hnr
    by_cases hgreen : isInvalidInput green = true
    · obtain ⟨e1, he1, hi1⟩ := validate_rgb_value_err green ("Green") hgreen
      obtain ⟨e2, he2, hi2⟩ :=
        bytearrayAppend_err (SET_COLOR_HEADER ++ [nr.toNat]) green hgreen
      refine ⟨fun brightness s => ⟨e1, ?_, hi1⟩, ⟨e2, ?_, hi2⟩⟩
      · simp only [set_color_to_rgb, validate_rgb_value_ok _ _ hnr1 hnr2, he1]
      · simp only [build_color_command,
          bytearrayAppend_ok _ _ hnr1 (by omega), he2]
    · obtain ⟨ng, hng, hng1, hng2⟩ := not_invalid green (Bool.eq_false_iff.mpr hgreen)
      subst hng
      have hblue : isInvalidInput blue = true := by
        rcases h with h | h | h
        · exact absurd h hred
        · exact absurd h hgreen
        · exact h
      obtain ⟨e1, he1, hi1⟩ := validate_rgb_value_err blue ("Blue") hblue
      obtain ⟨e2, he2, hi2⟩ :=
        bytearrayAppend_err ((SET_COLOR_HEADER ++ [nr.toNat]) ++ [ng.toNat]) blue hblue
      refine ⟨fun brightness s => ⟨e1, ?_, hi1⟩, ⟨e2, ?_, hi2⟩⟩
      · simp only [set_color_to_rgb, validate_rgb_value_ok _ _ hnr1 hnr2,
          validate_rgb_value_ok _ _ hng1 hng2, he1]
      · simp only [build_color_command,
          bytearrayAppend_ok _ _ hnr1 (by omega),
          bytearrayAppend_ok _ _ hng1 (by omega), he2]

/-- Witness for C2 at red = 256 and red = -1: the session is returned
unchanged and the result is not a success. -/
theorem invalid_rgb_rejected_witness :
    (set_color_to_rgb readyLED (.pyInt 256) (.pyInt 0) (.pyInt 0) none).1 = readyLED
  ∧ (set_color_to_rgb readyLED (.pyInt 256) (.pyInt 0) (.pyInt 0) none).2 ≠ .ok ()
  ∧ (set_color_to_rgb readyLED (.pyInt (-1)) (.pyInt 0) (.pyInt 0) none).1 = readyLED := by
  obtain ⟨e, he, _⟩ := (invalid_rgb_rejected (.pyInt 256) (.pyInt 0) (.pyInt 0)
    (Or.inl (by decide))).1 none readyLED
  obtain ⟨e2, he2, _⟩ := (invalid_rgb_rejected (.pyInt (-1)) (.pyInt 0) (.pyInt 0)
    (Or.inl (by decide))).1 none readyLED
  refine ⟨by rw [he], by rw [he]; simp, by rw [he2]⟩

/-- C3: on a connected session whose first write fails transiently,
`_write` with the retry flag forces a disconnect then a reconnect and
retries exactly once: it succeeds when the retried write succeeds,
fails with `LEDCommandError` carrying the frame when the retry fails
too, and in every state whatsoever performs at most two transport
write attempts (never more than one retry). -/
theorem write_retry_policy (data : List Nat) (e1 e2 m u : String) :
    write_impl ⟨some m, some u, some true, none, none, 255,
        ⟨[none], [some e1, none]⟩, []⟩ data true =
      (⟨some m, some u, some true, none, none, 255, ⟨[], []⟩,
        [.writeAttempt data false, .disconnected, .connectAttempt true,
         .writeAttempt data true]⟩, .ok ())
  ∧ write_impl ⟨some m, some u, some true, none, none, 255,
        ⟨[none], [some e1, some e2]⟩, []⟩ data true =
      (⟨some m, some u, some true, none, none, 255, ⟨[], []⟩,
        [.writeAttempt data false, .disconnected, .connectAttempt true,
         .writeAttempt data false]⟩, .error (.ledCommandError data e2))
  ∧ (∀ (s : LED) (d : List Nat) (b : Bool),
      writeCount (write_impl s d b).1.trace ≤ writeCount s.trace + 2) :=
  ⟨rfl, rfl, fun s d b => (write_impl_cached s d b).2⟩

/-- The failing input for C4: a session with two candidate ids and a
transport on which every connect attempt fails. -/
def probeState : LED :=
  ⟨some ("AA:BB:CC:DD:EE:FF"), none, none, none, none, 255,
   ⟨[some ("fail1"), some ("fail2"), some ("fail3")], []⟩, []⟩

/-- C4, evaluation at the failing input: with candidates uuid-A and
uuid-B and an always-failing transport, the probe raises
`LEDConnectionError` out of `_test_uuids` after the first candidate
(the `except BleakError` fallback is dead code, since
`_ensure_connected` and `_write` raise `BlueLightsError` subclasses):
uuid-B is never tried (only the first three scripted connect outcomes
are consumed) and the characteristic id is left set to uuid-A instead
of being cleared. -/
theorem test_uuids_aborts_on_connect_failure :
    (test_uuids probeState (["uuid-A", "uuid-B"])).2 =
      .error (.ledConnectionError (.failedAfter 3 (some ("fail3"))))
  ∧ (test_uuids probeState (["uuid-A", "uuid-B"])).1.uuid = some ("uuid-A")
  ∧ (test_uuids probeState (["uuid-A", "uuid-B"])).1.transport.connectResults = [] :=
  ⟨rfl, rfl, rfl⟩

/-- The counterexample state for C5: a connected session, cached
brightness 255, whose transport fails both the write and its retry. -/
def failingWriteLED : LED :=
  ⟨some ("AA:BB:CC:DD:EE:FF"), some ("0000ffe1-0000-1000-8000-00805f9b34fb"),
   some true, some true, some (1, 2, 3), 255,
   ⟨[none], [some ("boom"), some ("boom2")]⟩, []⟩

/-- C5 counterexample: `set_color_to_rgb` with an explicit brightness
fails at the write step, yet the cached brightness has changed from
255 to 100 - the cache update happens during validation, before the
write - so not all cached fields are unchanged. -/
theorem set_color_failure_mutates_brightness_cex :
    (set_color_to_rgb failingWriteLED (.pyInt 10) (.pyInt 20) (.pyInt 30)
        (some (.pyInt 100))).2 =
      .error (.ledCommandError (SET_COLOR_HEADER ++ [3, 7, 11]) ("boom2"))
  ∧ failingWriteLED.brightness = 255
  ∧ (set_color_to_rgb failingWriteLED (.pyInt 10) (.pyInt 20) (.pyInt 30)
        (some (.pyInt 100))).1.brightness = 100 :=
  ⟨rfl, rfl, rfl⟩

/-- C5 amended: when a Session Controller operation fails, the cached
power state and cached color are unchanged from before the call, and
for `turn_on`/`turn_off` the cached brightness as well; the one
exception is the brightness cache of `set_color_to_rgb`, which is
updated while validating an explicit brightness argument, before the
write, and therefore may change on a failing call (the
counterexample above). -/
theorem write_failure_preserves_power_and_color :
    (∀ (s : LED) (red green blue : PyNum) (brightness : Option PyNum) (e : PyError),
      (set_color_to_rgb s red green blue brightness).2 = .error e →
      (set_color_to_rgb s red green blue brightness).1.rgb_color = s.rgb_color ∧
      (set_color_to_rgb s red green blue brightness).1.is_on = s.is_on)
  ∧ (∀ (s : LED) (e : PyError), (turn_on s).2 = .error e → sameCache (turn_on s).1 s)
  ∧ (∀ (s : LED) (e : PyError), (turn_off s).2 = .error e →
      sameCache (turn_off s).1 s) := by
  refine ⟨fun s red green blue brightness e h => ?_,
    fun s e h => ?_, fun s e h => ?_⟩
  · rcases set_color_to_rgb_cases s red green blue brightness with hc | hc
    · rw [hc] at h
      exact absurd h (by simp)
    · exact hc
  · rcases turn_on_cases s with hc | hc
    · rw [hc.1] at h
      exact absurd h (by simp)
    · exact hc.2
  · rcases turn_off_cases s with hc | hc
    · rw [hc.1] at h
      exact absurd h (by simp)
    · exact hc.2

/-- Witness for the amended C5 at the counterexample state: the failing
call leaves the cached color (1, 2, 3) and power state unchanged. -/
theorem write_failure_preserves_power_and_color_witness :
    (set_color_to_rgb failingWriteLED (.pyInt 10) (.pyInt 20) (.pyInt 30)
        (some (.pyInt 100))).1.rgb_color = some (1, 2, 3)
  ∧ (set_color_to_rgb failingWriteLED (.pyInt 10) (.pyInt 20) (.pyInt 30)
        (some (.pyInt 100))).1.is_on = some true := by
  have h := (write_failure_preserves_power_and_color).1 failingWriteLED
    (.pyInt 10) (.pyInt 20) (.pyInt 30) (some (.pyInt 100))
    (.ledCommandError (SET_COLOR_HEADER ++ [3, 7, 11]) ("boom2")) (by rfl)
  exact ⟨h.1, h.2⟩

/-- C6: for every pair of endpoints, `fade_to_color` issues exactly 101
`set_color_to_rgb` calls, one per step 0..100, with channel
int(start + (end - start) * step / 100); step 0 sends the start color
and step 100 the end color exactly; and on a connected session at the
default brightness with a succeeding transport the loop completes and
performs exactly 101 transport writes. -/
theorem fade_steps_endpoints (sc ec : Int × Int × Int) :
    (fade_calls sc ec).length = 101
  ∧ (∀ step : Nat, step ≤ 100 → (fade_calls sc ec)[step]? =
      some (fadeChannel sc.1 ec.1 step, fadeChannel sc.2.1 ec.2.1 step,
        fadeChannel sc.2.2 ec.2.2 step))
  ∧ (fade_calls sc ec).head? = some sc
  ∧ (fade_calls sc ec).getLast? = some ec
  ∧ (∀ s : LED, inRange sc → inRange ec →
      s.mac.isNone = false → s.uuid.isNone = false → s.client = some true →
      s.transport.writeResults = [] → s.brightness = 255 →
      (fade_to_color s sc ec).2 = .ok () ∧
      writeCount (fade_to_color s sc ec).1.trace = writeCount s.trace + 101) := by
  refine ⟨by simp [fade_calls], fun step hstep => ?_, ?_, ?_, ?_⟩
  · simp [fade_calls, List.getElem?_map, List.getElem?_range (by omega : step < 101)]
  · have h0 : (List.range 101).head? = some 0 := by decide
    simp [fade_calls, List.head?_map, h0, fadeChannel_zero]
  · have hl : (List.range 101).getLast? = some 100 := by decide
    simp [fade_calls, List.getLast?_map, hl, fadeChannel_hundred]
  · intro s h1 h2 hm hu hc hw hbr
    have hspec := fade_go_spec (List.range 101) s sc ec
      (fun x hx => by simp only [List.mem_range] at hx; omega)
      h1 h2 hm hu hc hw hbr
    refine ⟨hspec.1, ?_⟩
    show writeCount (fade_to_color_go s sc ec (List.range 101)).1.trace =
      writeCount s.trace + 101
    rw [hspec.2, writeCount_append]
    have hcnt : writeCount (List.map (fun st => Event.writeAttempt (SET_COLOR_HEADER ++
        [(fadeChannel sc.1 ec.1 st).toNat, (fadeChannel sc.2.1 ec.2.1 st).toNat,
         (fadeChannel sc.2.2 ec.2.2 st).toNat]) true) (List.range 101)) = 101 := by
      rw [writeCount, List.countP_map]
      have hall : ∀ a ∈ List.range 101, (isWriteEvent ∘ (fun st =>
          Event.writeAttempt (SET_COLOR_HEADER ++
            [(fadeChannel sc.1 ec.1 st).toNat, (fadeChannel sc.2.1 ec.2.1 st).toNat,
             (fadeChannel sc.2.2 ec.2.2 st).toNat]) true)) a = true :=
        fun a _ => rfl
      rw [List.countP_eq_length.mpr hall, List.length_range]
    rw [hcnt]

/-- Witness for C6 on the fade from black to red: the last call is
exactly (255, 0, 0), the midpoint call is (127, 0, 0), and the run on
a ready session performs 101 writes. -/
theorem fade_steps_endpoints_witness :
    (fade_calls (0, 0, 0) (255, 0, 0)).getLast? = some (255, 0, 0)
  ∧ (fade_calls (0, 0, 0) (255, 0, 0))[50]? = some (127, 0, 0)
  ∧ (fade_to_color readyLED (0, 0, 0) (255, 0, 0)).2 = .ok ()
  ∧ writeCount (fade_to_color readyLED (0, 0, 0) (255, 0, 0)).1.trace = 101 := by
  have h := fade_steps_endpoints (0, 0, 0) (255, 0, 0)
  have h5 := h.2.2.2.2 readyLED (by norm_num [inRange]) (by norm_num [inRange])
    rfl rfl rfl rfl rfl
  refine ⟨h.2.2.2.1, ?_, h5.1, ?_⟩
  · rw [h.2.1 50 (by norm_num)]; decide
  · rw [h5.2]; decide

/-- C7: with retries = 3 and a transport whose connect attempts all
fail (with causes e1, e2, e3), `_ensure_connected` performs exactly 3
connect attempts, tears the partial handle down after each failure,
sleeps the fixed backoff between consecutive attempts but not after
the last, leaves no handle behind, and raises `LEDConnectionError`
carrying the attempt count and the last observed cause e3.  The cached
state is untouched. -/
theorem connect_three_attempts (e1 e2 e3 m u : String) (io : Option Bool)
    (col : Option (Int × Int × Int)) (br : Int) :
    ensure_connected ⟨some m, some u, none, io, col, br,
        ⟨[some e1, some e2, some e3], []⟩, []⟩ 3 =
      (⟨some m, some u, none, io, col, br, ⟨[], []⟩,
        [.connectAttempt false, .teardown, .sleepBackoff,
         .connectAttempt false, .teardown, .sleepBackoff,
         .connectAttempt false, .teardown]⟩,
       .error (.ledConnectionError (.failedAfter 3 (some e3)))) := rfl

/-- C8 counterexample: no step of the fade-in loop ever sends
brightness 255 (its maximum is floor(99*255/100) = 252; the peak 255
is only sent as the first step of the fade-out loop), and the last
step of the fade-out loop sends brightness floor(1*255/100) = 2, not
0.  So the ascending phase does not reach 255 and the descending phase
does not return to 0 as the claim states. -/
theorem breathing_endpoints_cex :
    breathing_ascending.contains 255 = false
  ∧ (breathing_calls (255, 0, 0)).getLast? = some ((255, 0, 0), 2) :=
  ⟨by decide, by decide⟩

set_option maxRecDepth 8000 in
/-- C8 amended: `breathing_light` issues 100 fade-in steps with
brightness floor(step*255/100) for step = 0..99 (monotonically rising
from 0 up to 252), then 100 fade-out steps with brightness
floor(step*255/100) for step = 100 down to 1 (monotonically falling
from 255 down to 2, not 0), each calling `set_color_to_rgb` with that
explicit brightness (which overrides and replaces the cached value);
each phase spends duration/2 (100 sleeps of duration/200). -/
theorem breathing_steps_formula (color : Int × Int × Int) :
    (breathing_calls color).length = 200
  ∧ (breathing_calls color).take 100 =
      breathing_ascending.map (fun bv => (color, bv))
  ∧ (breathing_calls color).drop 100 =
      breathing_descending.map (fun bv => (color, bv))
  ∧ ((breathing_ascending.zip breathing_ascending.tail).all
      fun p => decide (p.1 ≤ p.2)) = true
  ∧ ((breathing_descending.zip breathing_descending.tail).all
      fun p => decide (p.2 ≤ p.1)) = true
  ∧ (breathing_calls color).head? = some (color, 0)
  ∧ (breathing_calls color)[99]? = some (color, 252)
  ∧ (breathing_calls color)[100]? = some (color, 255)
  ∧ (breathing_calls color).getLast? = some (color, 2) := by
  have hmap : breathing_calls color =
      (breathing_ascending ++ breathing_descending).map (fun bv => (color, bv)) := by
    simp only [breathing_calls, breathing_ascending, breathing_descending,
      List.map_append, List.map_map]
    rfl
  have hlen : (breathing_ascending.map (fun bv => (color, bv))).length = 100 := by
    rw [List.length_map]
    decide
  refine ⟨?_, ?_, ?_, by decide, by decide, ?_, ?_, ?_, ?_⟩
  · rw [hmap, List.length_map]
    decide
  · rw [hmap, List.map_append, ← hlen, List.take_left]
  · rw [hmap, List.map_append, ← hlen, List.drop_left]
  · rw [hmap, List.head?_map,
      (show (breathing_ascending ++ breathing_descending).head? = some 0 by decide)]
    rfl
  · rw [hmap, List.getElem?_map,
      (show (breathing_ascending ++ breathing_descending)[99]? = some 252 by decide)]
    rfl
  · rw [hmap, List.getElem?_map,
      (show (breathing_ascending ++ breathing_descending)[100]? = some 255 by decide)]
    rfl
  · rw [hmap, List.getLast?_map,
      (show (breathing_ascending ++ breathing_descending).getLast? = some 2 by decide)]
    rfl

/-- A concrete loop state for C9: one running effect (id 1), suspended
with a write still pending. -/
def cexLoop : LoopState :=
  ⟨[⟨1, [.writeA TURN_ON, .sleepA], false⟩], some 1, []⟩

/-- C9 counterexample: `start_color_cycle` stops the old effect with
the non-blocking `stop_effect_sync`, which cancels but does not await:
at the instant the call returns, the new task (id 2) is created and
referenced while the old task (id 1) is still scheduled, i.e. its
termination was not awaited before the new task was launched. -/
theorem start_cycle_old_task_alive_cex :
    taskAlive (start_color_cycle_model cexLoop 2 [.sleepA]) 1 = true
  ∧ (start_color_cycle_model cexLoop 2 [.sleepA]).runningRef = some 2
  ∧ taskAlive (start_color_cycle_model cexLoop 2 [.sleepA]) 2 = true :=
  ⟨rfl, rfl, rfl⟩

/-- C9 amended: after `stop_effect` returns the stopped effect is
terminated and issues no further writes however long the loop keeps
running; `start_color_cycle` only requests cancellation synchronously
(without awaiting termination, see the counterexample), but the
cancelled old task exits at its first resumption without writing, so
the old effect contributes no write after the new one is launched and
writes from two effects never interleave. -/
theorem effects_no_interleaved_writes :
    (∀ (st : LoopState) (tid : Nat), st.runningRef = some tid →
      taskAlive (stop_effect_model st) tid = false)
  ∧ (∀ (st : LoopState) (tid n : Nat), st.runningRef = some tid →
      logFor (runSteps n (stop_effect_model st)) tid = logFor st tid)
  ∧ (∀ (st : LoopState) (tid newTid : Nat) (prog : List EffAction) (n : Nat),
      st.runningRef = some tid → tid ≠ newTid →
      logFor (runSteps n (start_color_cycle_model st newTid prog)) tid =
        logFor st tid) := by
  refine ⟨fun st tid h => ?_, fun st tid n h => ?_,
    fun st tid newTid prog n h hne => ?_⟩
  · unfold stop_effect_model
    simp only [h]
    split
    · show (st.tasks.filter (fun t => t.tid != tid)).any (fun t => t.tid == tid) = false
      rw [List.any_eq_false]
      intro x hx
      have hmem := List.mem_filter.mp hx
      have hxne : x.tid ≠ tid := by simpa using hmem.2
      simp [hxne]
    · next halive => exact Bool.eq_false_iff.mpr halive
  · have hnl : noLiveTask (stop_effect_model st) tid := by
      unfold stop_effect_model
      simp only [h]
      split
      · intro t ht htid
        exfalso
        have ht2 : t ∈ st.tasks.filter (fun t => t.tid != tid) := ht
        have hmem := List.mem_filter.mp ht2
        have hxne : t.tid ≠ tid := by simpa using hmem.2
        exact hxne htid
      · next halive => exact taskAlive_false_noLive (Bool.eq_false_iff.mpr halive)
    have hlog : logFor (stop_effect_model st) tid = logFor st tid := by
      unfold stop_effect_model
      simp only [h]
      split <;> rfl
    rw [runSteps_noLive n _ tid hnl, hlog]
  · have hnl : noLiveTask (start_color_cycle_model st newTid prog) tid := by
      intro t ht htid
      have ht2 : t ∈ (stop_effect_sync st).tasks ++
          [(⟨newTid, prog, false⟩ : EffTask)] := ht
      rcases List.mem_append.mp ht2 with h3 | h3
      · have hstop : noLiveTask (stop_effect_sync st) tid := by
          unfold stop_effect_sync
          simp only [h]
          split
          · exact fun t' ht' => cancelTask_noLive st.tasks tid t' ht'
          · next halive => exact taskAlive_false_noLive (Bool.eq_false_iff.mpr halive)
        exact hstop t h3 htid
      · have heq := List.mem_singleton.mp h3
        rw [heq] at htid
        exact absurd htid.symm hne
    have hlog : logFor (start_color_cycle_model st newTid prog) tid = logFor st tid := by
      have h1 : (stop_effect_sync st).log = st.log := by
        unfold stop_effect_sync
        simp only [h]
        split <;> rfl
      show ((stop_effect_sync st).log.filter fun e => e.1 == tid) = logFor st tid
      rw [h1]
      rfl
    rw [runSteps_noLive n _ tid hnl, hlog]

/-- Witness for the amended C9 on the concrete loop state: after a stop
(or a replacing start) the old effect id 1 has written nothing new
even after five further scheduler steps. -/
theorem effects_no_interleaved_writes_witness :
    taskAlive (stop_effect_model cexLoop) 1 = false
  ∧ logFor (runSteps 5 (stop_effect_model cexLoop)) 1 = []
  ∧ logFor (runSteps 5 (start_color_cycle_model cexLoop 2 [.sleepA])) 1 = [] := by
  have h := effects_no_interleaved_writes
  refine ⟨h.1 cexLoop 1 rfl, ?_, ?_⟩
  · rw [h.2.1 cexLoop 1 5 rfl]
    rfl
  · rw [h.2.2 cexLoop 1 2 ([.sleepA]) 5 rfl (by decide)]
    rfl

/-- C10: a successful `set_color_to_rgb` never changes the cached power
state, and a successful `turn_on` or `turn_off` never changes the
cached color or the cached brightness; each operation only writes its
own cached field(s). -/
theorem cached_fields_untouched :
    (∀ (s : LED) (red green blue : PyNum) (brightness : Option PyNum),
      (set_color_to_rgb s red green blue brightness).2 = .ok () →
      (set_color_to_rgb s red green blue brightness).1.is_on = s.is_on)
  ∧ (∀ s : LED, (turn_on s).2 = .ok () →
      (turn_on s).1.rgb_color = s.rgb_color ∧ (turn_on s).1.brightness = s.brightness)
  ∧ (∀ s : LED, (turn_off s).2 = .ok () →
      (turn_off s).1.rgb_color = s.rgb_color ∧
      (turn_off s).1.brightness = s.brightness) := by
  refine ⟨fun s red green blue brightness _ =>
      set_color_to_rgb_is_on s red green blue brightness,
    fun s _ => ?_, fun s _ => ?_⟩
  · rcases turn_on_cases s with hc | hc
    · exact ⟨hc.2.2.1, hc.2.2.2⟩
    · exact ⟨hc.2.2.1, hc.2.2.2⟩
  · rcases turn_off_cases s with hc | hc
    · exact ⟨hc.2.2.1, hc.2.2.2⟩
    · exact ⟨hc.2.2.1, hc.2.2.2⟩

/-- Witness for C10 on the ready session: a successful `turn_on` keeps
color and brightness, a successful `set_color_to_rgb` keeps the power
state. -/
theorem cached_fields_untouched_witness :
    (turn_on readyLED).1.rgb_color = none
  ∧ (turn_on readyLED).1.brightness = 255
  ∧ (set_color_to_rgb readyLED (.pyInt 10) (.pyInt 20) (.pyInt 30) none).1.is_on
      = none := by
  have h := cached_fields_untouched
  have h1 := h.2.1 readyLED (by rfl)
  have h2 := h.1 readyLED (.pyInt 10) (.pyInt 20) (.pyInt 30) none (by rfl)
  exact ⟨h1.1, h1.2, h2⟩

end BlueLights
